import Mathlib

/-!
Shallow embedding of `src/main.py` (Rml-A/final_fastapi): a FastAPI CRUD
service over three SQLite tables (users, products, orders).

Modelling decisions:
* Each SQL table is an association list `List (Int × rec)` of (rowid, row).
  SQLite assigns a fresh rowid on insert, one more than the largest rowid
  in use (`nextId`); `database.execute(insert)` returns that rowid.
* `datetime` values are modelled as `Nat` timestamps; the only operations
  the code performs on them are storing and comparing.
* Python `float` for `price` is modelled as `ℚ`: the code performs no
  float arithmetic, only the exact sign comparison `gt=0`, which agrees
  with the rational model.
* HTTP responses are the `Resp` type: `ok body` (status 200),
  `errJson status obj` (a `JSONResponse(obj, status)`), and
  `validationError status fields` (pydantic/FastAPI 422 with the list of
  offending field names, standing for the structured per-field detail).
* The pydantic validation layer (`Field(max_length=...)` etc.) runs before
  a handler body; `postUser`/`putUser` etc. compose validation with the
  handler the way FastAPI does.
* All definitions are total Lean functions: no handler can raise.
-/

namespace FinalFastapi

/-- One SQL table: association list of (rowid, row). -/
abbrev Table (α : Type) := List (Int × α)

/-- The rowid SQLite assigns to a fresh insert: one more than the largest
rowid in use (1 on an empty table). -/
def nextId {α : Type} (t : Table α) : Int :=
  (t.foldl (fun acc p => max acc p.1) 0) + 1

/-- Model of `database.fetch_one(tbl.select().where(tbl.c.id == i))`: the first row
whose id matches, without its id column projected away from the pair. -/
def fetch_one {α : Type} (t : Table α) (i : Int) : Option α :=
  (t.find? (fun p => p.1 == i)).map Prod.snd

/-- Model of `database.execute(tbl.insert().values(...))`: appends a row under a
fresh rowid and returns the new table together with that rowid. -/
def insertRow {α : Type} (t : Table α) (a : α) : Table α × Int :=
  (t ++ [(nextId t, a)], nextId t)

/-- Model of `tbl.update().where(tbl.c.id == i).values(...)`: overwrite every row
whose id is `i` (zero rows when the id is absent). -/
def updateRows {α : Type} (t : Table α) (i : Int) (a : α) : Table α :=
  t.map (fun p => if p.1 == i then (i, a) else p)

/-- Model of `tbl.delete().where(tbl.c.id == i)`: remove every row whose id is `i`. -/
def deleteRows {α : Type} (t : Table α) (i : Int) : Table α :=
  t.filter (fun p => !(p.1 == i))

/-- The fields of `NewUser` (pydantic input shape, no id). -/
structure UserRec where
  first_name : String
  last_name : String
  email : String
  password : String
deriving DecidableEq, Repr

/-- The fields of `NewProduct`. `price` is the exact value of the float. -/
structure ProductRec where
  name : String
  description : String
  price : ℚ
deriving DecidableEq, Repr

/-- The fields of `NewOrder` after pydantic parsing (defaults applied). -/
structure OrderRec where
  user_id : Int
  product_id : Int
  date : Nat
  status : String
deriving DecidableEq, Repr

/-- The three tables behind `DATABASE_URL`. -/
structure DB where
  users : Table UserRec
  products : Table ProductRec
  orders : Table OrderRec
deriving DecidableEq, Repr

/-- The freshly created SQLite file: all tables empty. -/
def emptyDB : DB := ⟨[], [], []⟩

/-- An HTTP response: 200 with a typed JSON body, a `JSONResponse` error
object with an explicit status, or a pydantic validation failure (FastAPI
sends it with status 422 and a per-field error list). -/
inductive Resp (β : Type) where
  | ok (body : β)
  | errJson (status : Nat) (errObj : List (String × String))
  | validationError (status : Nat) (fields : List String)
deriving DecidableEq, Repr

/-- pydantic constraints on `NewUser`: `max_length` 50/150/150 and
`min_length=6` on password. Returns the offending field names. -/
def validateNewUser (u : UserRec) : List String :=
  (if u.first_name.length > 50 then ["first_name"] else []) ++
  (if u.last_name.length > 150 then ["last_name"] else []) ++
  (if u.email.length > 150 then ["email"] else []) ++
  (if u.password.length < 6 then ["password"] else [])

/-- pydantic constraints on `NewProduct`: `max_length` 100/1000 and
`gt=0` on price. -/
def validateNewProduct (p : ProductRec) : List String :=
  (if p.name.length > 100 then ["name"] else []) ++
  (if p.description.length > 1000 then ["description"] else []) ++
  (if p.price ≤ 0 then ["price"] else [])

/-- pydantic parsing of a `NewOrder` body. The crucial detail, taken from
the source line `date: datetime = Field(default=datetime.now())`: the
default is the single `datetime.now()` value computed when the module was
imported (`importTime`), not the request-processing time — Python
evaluates the `default=` argument once at class-definition time. -/
def parseNewOrder (importTime : Nat) (user_id product_id : Int)
    (date : Option Nat) (status : Option String) : OrderRec :=
  { user_id := user_id
    product_id := product_id
    date := date.getD importTime
    status := status.getD "created" }

/-- Model of `GET /users/`: every row of the users table. -/
def read_all_users (db : DB) : List (Int × UserRec) := db.users

/-- Model of `GET /products/`. -/
def read_all_products (db : DB) : List (Int × ProductRec) := db.products

/-- Model of `GET /orders/`. -/
def read_all_orders (db : DB) : List (Int × OrderRec) := db.orders

/-- Model of `GET /users/{user_id}`: the row, or `JSONResponse({'error': 'ID not
found'}, 404)`. -/
def read_user (db : DB) (user_id : Int) : Resp (Int × UserRec) :=
  match fetch_one db.users user_id with
  | some u => .ok (user_id, u)
  | none => .errJson 404 [("error", "ID not found")]

/-- Model of `GET /products/{product_id}`. -/
def read_product (db : DB) (product_id : Int) : Resp (Int × ProductRec) :=
  match fetch_one db.products product_id with
  | some p => .ok (product_id, p)
  | none => .errJson 404 [("error", "ID not found")]

/-- Model of `GET /orders/{order_id}` (source name `read_order_`). -/
def read_order_ (db : DB) (order_id : Int) : Resp (Int × OrderRec) :=
  match fetch_one db.orders order_id with
  | some o => .ok (order_id, o)
  | none => .errJson 404 [("error", "ID not found")]

/-- Model of `POST /users/` handler body: insert, echo fields plus the new id. -/
def create_user (db : DB) (u : UserRec) : DB × Resp (Int × UserRec) :=
  let r := insertRow db.users u
  ({ db with users := r.1 }, .ok (r.2, u))

/-- Model of `POST /products/` handler body. -/
def create_product (db : DB) (p : ProductRec) : DB × Resp (Int × ProductRec) :=
  let r := insertRow db.products p
  ({ db with products := r.1 }, .ok (r.2, p))

/-- Model of `POST /orders/` handler body: inserts whatever `user_id`/`product_id`
the parsed body carries — no foreign-key lookup is performed (SQLite does
not enforce declared foreign keys unless the pragma is enabled). -/
def create_order (db : DB) (o : OrderRec) : DB × Resp (Int × OrderRec) :=
  let r := insertRow db.orders o
  ({ db with orders := r.1 }, .ok (r.2, o))

/-- Model of `PUT /users/{user_id}` handler body: unconditional update, echo of the
payload plus the given id regardless of how many rows were affected. -/
def update_user (db : DB) (user_id : Int) (new_user : UserRec) :
    DB × Resp (Int × UserRec) :=
  ({ db with users := updateRows db.users user_id new_user },
   .ok (user_id, new_user))

/-- Model of `PUT /products/{product_id}` handler body. -/
def update_product (db : DB) (product_id : Int) (new_product : ProductRec) :
    DB × Resp (Int × ProductRec) :=
  ({ db with products := updateRows db.products product_id new_product },
   .ok (product_id, new_product))

/-- Model of `PUT /orders/{order_id}` handler body. -/
def update_order (db : DB) (order_id : Int) (new_order : OrderRec) :
    DB × Resp (Int × OrderRec) :=
  ({ db with orders := updateRows db.orders order_id new_order },
   .ok (order_id, new_order))

/-- Model of `DELETE /users/{user_id}`: remove the row if present, fixed message. -/
def delete_user (db : DB) (user_id : Int) :
    DB × List (String × String) :=
  ({ db with users := deleteRows db.users user_id },
   [("message", "User deleted")])

/-- Model of `DELETE /products/{product_id}`. -/
def delete_product (db : DB) (product_id : Int) :
    DB × List (String × String) :=
  ({ db with products := deleteRows db.products product_id },
   [("message", "Product deleted")])

/-- Model of `DELETE /orders/{order_id}`. -/
def delete_order (db : DB) (order_id : Int) :
    DB × List (String × String) :=
  ({ db with orders := deleteRows db.orders order_id },
   [("message", "Order deleted")])

/-- Model of `POST /users/` as FastAPI runs it: pydantic validation first (422 on
failure, handler body untouched, so the store is unchanged). -/
def postUser (db : DB) (u : UserRec) : DB × Resp (Int × UserRec) :=
  if validateNewUser u = [] then create_user db u
  else (db, .validationError 422 (validateNewUser u))

/-- Model of `POST /products/` with validation. -/
def postProduct (db : DB) (p : ProductRec) : DB × Resp (Int × ProductRec) :=
  if validateNewProduct p = [] then create_product db p
  else (db, .validationError 422 (validateNewProduct p))

/-- Model of `PUT /users/{id}` with validation. -/
def putUser (db : DB) (i : Int) (u : UserRec) : DB × Resp (Int × UserRec) :=
  if validateNewUser u = [] then update_user db i u
  else (db, .validationError 422 (validateNewUser u))

/-- Model of `PUT /products/{id}` with validation. -/
def putProduct (db : DB) (i : Int) (p : ProductRec) :
    DB × Resp (Int × ProductRec) :=
  if validateNewProduct p = [] then update_product db i p
  else (db, .validationError 422 (validateNewProduct p))

/-- Model of `PUT /orders/{id}` with parsing of the optional fields (a `NewOrder`
body always validates: its fields have no constraints beyond type). -/
def putOrder (importTime : Nat) (db : DB) (i : Int) (uid pid : Int)
    (date : Option Nat) (status : Option String) :
    DB × Resp (Int × OrderRec) :=
  update_order db i (parseNewOrder importTime uid pid date status)

/-- Model of `POST /orders/` as FastAPI runs it: parse the body (applying the
class-definition-time date default and the "created" status default),
then the handler body. -/
def postOrder (importTime : Nat) (db : DB) (uid pid : Int)
    (date : Option Nat) (status : Option String) :
    DB × Resp (Int × OrderRec) :=
  create_order db (parseNewOrder importTime uid pid date status)

/-- A sequence of `POST /users/` handler invocations. -/
def createUsers (db : DB) (l : List UserRec) : DB :=
  l.foldl (fun d u => (create_user d u).1) db

/-- A sequence of `POST /products/` handler invocations. -/
def createProducts (db : DB) (l : List ProductRec) : DB :=
  l.foldl (fun d p => (create_product d p).1) db

/-- A sequence of `POST /orders/` handler invocations (parsed bodies). -/
def createOrders (db : DB) (l : List OrderRec) : DB :=
  l.foldl (fun d o => (create_order d o).1) db

/-! ### Lemmas about the table operations -/

theorem le_foldl_max {α : Type} (t : Table α) (init : Int) :
    init ≤ t.foldl (fun acc p => max acc p.1) init ∧
    ∀ p ∈ t, p.1 ≤ t.foldl (fun acc p => max acc p.1) init := by
  induction t generalizing init with
  | nil => simp
  | cons hd tl ih =>
    refine ⟨le_trans (le_max_left _ _) (ih (max init hd.1)).1, ?_⟩
    intro p hp
    rcases List.mem_cons.mp hp with h | h
    · subst h
      exact le_trans (le_max_right _ _) (ih (max init p.1)).1
    · exact (ih (max init hd.1)).2 p h

/-- Every rowid in the table is strictly below the freshly assigned one. -/
theorem lt_nextId {α : Type} (t : Table α) : ∀ p ∈ t, p.1 < nextId t := by
  intro p hp
  have := (le_foldl_max t 0).2 p hp
  unfold nextId
  omega

theorem fetch_one_eq_none_iff {α : Type} (t : Table α) (i : Int) :
    fetch_one t i = none ↔ ∀ p ∈ t, p.1 ≠ i := by
  unfold fetch_one
  rw [Option.map_eq_none', List.find?_eq_none]
  simp

/-- Looking up a freshly inserted row finds it. -/
theorem fetch_one_append_fresh {α : Type} (t : Table α) (i : Int) (a : α)
    (h : ∀ p ∈ t, p.1 ≠ i) : fetch_one (t ++ [(i, a)]) i = some a := by
  induction t with
  | nil => simp [fetch_one]
  | cons hd tl ih =>
    have hhd : hd.1 ≠ i := h hd (List.mem_cons_self _ _)
    have htl : ∀ p ∈ tl, p.1 ≠ i := fun p hp => h p (List.mem_cons_of_mem _ hp)
    simpa [fetch_one, List.find?_cons, hhd] using ih htl

theorem fetch_one_cons_self {α : Type} (hd : Int × α) (tl : Table α) (j : Int)
    (h : hd.1 = j) : fetch_one (hd :: tl) j = some hd.2 := by
  unfold fetch_one
  rw [List.find?_cons_of_pos _ (by simp [h])]
  rfl

theorem fetch_one_cons_ne {α : Type} (hd : Int × α) (tl : Table α) (j : Int)
    (h : hd.1 ≠ j) : fetch_one (hd :: tl) j = fetch_one tl j := by
  unfold fetch_one
  rw [List.find?_cons_of_neg _ (by simp [h])]

/-- An update whose id matches no row writes zero rows. -/
theorem updateRows_of_absent {α : Type} (t : Table α) (i : Int) (a : α)
    (h : ∀ p ∈ t, p.1 ≠ i) : updateRows t i a = t := by
  induction t with
  | nil => rfl
  | cons hd tl ih =>
    have hhd : (hd.1 == i) = false := by
      simpa using h hd (List.mem_cons_self _ _)
    have htl := ih (fun p hp => h p (List.mem_cons_of_mem _ hp))
    show (if hd.1 == i then (i, a) else hd) :: updateRows tl i a = hd :: tl
    rw [hhd, htl]
    rfl

/-- Updating one id leaves every other id's lookup unchanged. -/
theorem fetch_one_updateRows_ne {α : Type} (t : Table α) (i j : Int) (a : α)
    (h : j ≠ i) : fetch_one (updateRows t i a) j = fetch_one t j := by
  induction t with
  | nil => rfl
  | cons hd tl ih =>
    have hmap : updateRows (hd :: tl) i a
        = (if hd.1 == i then (i, a) else hd) :: updateRows tl i a := rfl
    by_cases hhd : hd.1 = i
    · rw [hmap, if_pos (by simpa using hhd)]
      rw [fetch_one_cons_ne (i, a) _ j (fun hc => h hc.symm)]
      rw [fetch_one_cons_ne hd _ j (by rw [hhd]; exact fun hc => h hc.symm)]
      exact ih
    · rw [hmap, if_neg (by simpa using hhd)]
      by_cases hj : hd.1 = j
      · rw [fetch_one_cons_self _ _ _ hj, fetch_one_cons_self _ _ _ hj]
      · rw [fetch_one_cons_ne _ _ _ hj, fetch_one_cons_ne _ _ _ hj]
        exact ih

/-- Deleting one id leaves every other id's lookup unchanged. -/
theorem fetch_one_deleteRows_ne {α : Type} (t : Table α) (i j : Int)
    (h : j ≠ i) : fetch_one (deleteRows t i) j = fetch_one t j := by
  induction t with
  | nil => rfl
  | cons hd tl ih =>
    by_cases hhd : hd.1 = i
    · have hdrop : deleteRows (hd :: tl) i = deleteRows tl i := by
        simp [deleteRows, List.filter_cons, hhd]
      rw [hdrop, fetch_one_cons_ne hd _ j (by rw [hhd]; exact fun hc => h hc.symm)]
      exact ih
    · have hkeep : deleteRows (hd :: tl) i = hd :: deleteRows tl i := by
        simp [deleteRows, List.filter_cons, hhd]
      rw [hkeep]
      by_cases hj : hd.1 = j
      · rw [fetch_one_cons_self _ _ _ hj, fetch_one_cons_self _ _ _ hj]
      · rw [fetch_one_cons_ne _ _ _ hj, fetch_one_cons_ne _ _ _ hj]
        exact ih

/-- Deleting an id twice is the same as deleting it once. -/
theorem deleteRows_idem {α : Type} (t : Table α) (i : Int) :
    deleteRows (deleteRows t i) i = deleteRows t i := by
  unfold deleteRows
  rw [List.filter_filter]
  simp

/-- A missing user id makes `GET /users/{id}` answer 404. -/
theorem read_user_absent (db : DB) (i : Int)
    (h : fetch_one db.users i = none) :
    read_user db i = .errJson 404 [("error", "ID not found")] := by
  simp [read_user, h]

/-- A missing product id makes `GET /products/{id}` answer 404. -/
theorem read_product_absent (db : DB) (i : Int)
    (h : fetch_one db.products i = none) :
    read_product db i = .errJson 404 [("error", "ID not found")] := by
  simp [read_product, h]

/-- A missing order id makes `GET /orders/{id}` answer 404. -/
theorem read_order_absent (db : DB) (i : Int)
    (h : fetch_one db.orders i = none) :
    read_order_ db i = .errJson 404 [("error", "ID not found")] := by
  simp [read_order_, h]

theorem createUsers_users_length (l : List UserRec) (db : DB) :
    (createUsers db l).users.length = db.users.length + l.length := by
  induction l generalizing db with
  | nil => simp [createUsers]
  | cons hd tl ih =>
    have := ih (create_user db hd).1
    simp [createUsers, List.foldl_cons] at this ⊢
    rw [this]
    simp [create_user, insertRow]
    omega

theorem createProducts_products_length (l : List ProductRec) (db : DB) :
    (createProducts db l).products.length = db.products.length + l.length := by
  induction l generalizing db with
  | nil => simp [createProducts]
  | cons hd tl ih =>
    have := ih (create_product db hd).1
    simp [createProducts, List.foldl_cons] at this ⊢
    rw [this]
    simp [create_product, insertRow]
    omega

theorem createOrders_orders_length (l : List OrderRec) (db : DB) :
    (createOrders db l).orders.length = db.orders.length + l.length := by
  induction l generalizing db with
  | nil => simp [createOrders]
  | cons hd tl ih =>
    have := ih (create_order db hd).1
    simp [createOrders, List.foldl_cons] at this ⊢
    rw [this]
    simp [create_order, insertRow]
    omega

theorem validateNewUser_password_mem (u : UserRec)
    (h : u.password.length < 6) : "password" ∈ validateNewUser u := by
  simp [validateNewUser, h]

theorem validateNewUser_first_name_mem (u : UserRec)
    (h : 50 < u.first_name.length) : "first_name" ∈ validateNewUser u := by
  simp [validateNewUser, h]

theorem validateNewUser_last_name_mem (u : UserRec)
    (h : 150 < u.last_name.length) : "last_name" ∈ validateNewUser u := by
  simp [validateNewUser, h]

theorem validateNewUser_email_mem (u : UserRec)
    (h : 150 < u.email.length) : "email" ∈ validateNewUser u := by
  simp [validateNewUser, h]

theorem validateNewProduct_price_mem (p : ProductRec)
    (h : p.price ≤ 0) : "price" ∈ validateNewProduct p := by
  simp [validateNewProduct, h]

theorem validateNewProduct_name_mem (p : ProductRec)
    (h : 100 < p.name.length) : "name" ∈ validateNewProduct p := by
  simp [validateNewProduct, h]

theorem validateNewProduct_description_mem (p : ProductRec)
    (h : 1000 < p.description.length) :
    "description" ∈ validateNewProduct p := by
  simp [validateNewProduct, h]

/-! ### The claims -/

/-- C1: for every valid `NewUser` body, `POST /users/` echoes the input
fields plus the freshly assigned id, and a subsequent `GET /users/{id}`
with that id returns exactly that record. -/
theorem C1_post_then_get_roundtrip (db : DB) (u : UserRec)
    (hv : validateNewUser u = []) :
    (postUser db u).2 = .ok (nextId db.users, u) ∧
    read_user (postUser db u).1 (nextId db.users) =
      .ok (nextId db.users, u) := by
  have hpost : postUser db u = create_user db u := by
    simp [postUser, hv]
  rw [hpost]
  refine ⟨rfl, ?_⟩
  have hfresh : ∀ p ∈ db.users, p.1 ≠ nextId db.users :=
    fun p hp => ne_of_lt (lt_nextId db.users p hp)
  have hfetch : fetch_one (create_user db u).1.users (nextId db.users)
      = some u := by
    show fetch_one (db.users ++ [(nextId db.users, u)]) (nextId db.users)
        = some u
    exact fetch_one_append_fresh db.users (nextId db.users) u hfresh
  simp [read_user, hfetch]

/-- Witness for C1 at a concrete valid user on the empty store. -/
theorem C1_post_then_get_roundtrip_witness :
    validateNewUser (UserRec.mk "Ann" "Lee" "ann@example.com" "hunter2")
      = [] ∧
    ((postUser emptyDB
        (UserRec.mk "Ann" "Lee" "ann@example.com" "hunter2")).2 =
      .ok (nextId emptyDB.users,
        UserRec.mk "Ann" "Lee" "ann@example.com" "hunter2") ∧
    read_user (postUser emptyDB
        (UserRec.mk "Ann" "Lee" "ann@example.com" "hunter2")).1
        (nextId emptyDB.users) =
      .ok (nextId emptyDB.users,
        UserRec.mk "Ann" "Lee" "ann@example.com" "hunter2")) :=
  ⟨by decide, C1_post_then_get_roundtrip emptyDB _ (by decide)⟩

/-- C2 (against the code as written): the `date` default of `NewOrder` is
the one `datetime.now()` value computed at module import, so every order
created without an explicit date — whatever the request-processing time —
is stored and echoed with that same import-time date (and status
"created"); two such orders never receive different dates. -/
theorem C2_date_default_fixed_at_import (importTime : Nat) (db : DB)
    (uid1 pid1 uid2 pid2 : Int) :
    (postOrder importTime db uid1 pid1 none none).2 =
      .ok (nextId db.orders, OrderRec.mk uid1 pid1 importTime "created") ∧
    (postOrder importTime (postOrder importTime db uid1 pid1 none none).1
        uid2 pid2 none none).2 =
      .ok (nextId (postOrder importTime db uid1 pid1 none none).1.orders,
        OrderRec.mk uid2 pid2 importTime "created") ∧
    (parseNewOrder importTime uid1 pid1 none none).date =
      (parseNewOrder importTime uid2 pid2 none none).date :=
  ⟨rfl, rfl, rfl⟩

/-- C3: a lookup on an id absent from the store returns the structured
404 payload for every entity; the handlers are total functions, so no
fault is raised and no server error is produced. -/
theorem C3_get_missing_id_is_404 (db : DB) (i : Int)
    (hu : fetch_one db.users i = none)
    (hp : fetch_one db.products i = none)
    (ho : fetch_one db.orders i = none) :
    read_user db i = .errJson 404 [("error", "ID not found")] ∧
    read_product db i = .errJson 404 [("error", "ID not found")] ∧
    read_order_ db i = .errJson 404 [("error", "ID not found")] :=
  ⟨read_user_absent db i hu, read_product_absent db i hp,
   read_order_absent db i ho⟩

/-- Witness for C3 on the empty store at id 1. -/
theorem C3_get_missing_id_is_404_witness :
    (fetch_one emptyDB.users 1 = none ∧
     fetch_one emptyDB.products 1 = none ∧
     fetch_one emptyDB.orders 1 = none) ∧
    (read_user emptyDB 1 = .errJson 404 [("error", "ID not found")] ∧
     read_product emptyDB 1 = .errJson 404 [("error", "ID not found")] ∧
     read_order_ emptyDB 1 = .errJson 404 [("error", "ID not found")]) :=
  ⟨⟨rfl, rfl, rfl⟩, C3_get_missing_id_is_404 emptyDB 1 rfl rfl rfl⟩

/-- C4: a `PUT` on an id absent from the store succeeds with an echo of
the payload plus that id, writes zero rows (the store is returned
unchanged), and a subsequent `GET` on that id still answers 404. -/
theorem C4_put_missing_id_writes_nothing (db : DB) (i : Int) (u : UserRec)
    (p : ProductRec) (importTime : Nat) (uid pid : Int) (od : Option Nat)
    (os : Option String)
    (hvu : validateNewUser u = [])
    (hvp : validateNewProduct p = [])
    (hu : fetch_one db.users i = none)
    (hp : fetch_one db.products i = none)
    (ho : fetch_one db.orders i = none) :
    (putUser db i u = (db, .ok (i, u)) ∧
      read_user (putUser db i u).1 i =
        .errJson 404 [("error", "ID not found")]) ∧
    (putProduct db i p = (db, .ok (i, p)) ∧
      read_product (putProduct db i p).1 i =
        .errJson 404 [("error", "ID not found")]) ∧
    (putOrder importTime db i uid pid od os =
        (db, .ok (i, parseNewOrder importTime uid pid od os)) ∧
      read_order_ (putOrder importTime db i uid pid od os).1 i =
        .errJson 404 [("error", "ID not found")]) := by
  have hu' : ∀ q ∈ db.users, q.1 ≠ i := (fetch_one_eq_none_iff _ _).mp hu
  have hp' : ∀ q ∈ db.products, q.1 ≠ i := (fetch_one_eq_none_iff _ _).mp hp
  have ho' : ∀ q ∈ db.orders, q.1 ≠ i := (fetch_one_eq_none_iff _ _).mp ho
  have hU : putUser db i u = (db, .ok (i, u)) := by
    simp [putUser, hvu, update_user, updateRows_of_absent _ _ _ hu']
  have hP : putProduct db i p = (db, .ok (i, p)) := by
    simp [putProduct, hvp, update_product, updateRows_of_absent _ _ _ hp']
  have hO : putOrder importTime db i uid pid od os =
      (db, .ok (i, parseNewOrder importTime uid pid od os)) := by
    simp [putOrder, update_order, updateRows_of_absent _ _ _ ho']
  refine ⟨⟨hU, ?_⟩, ⟨hP, ?_⟩, ⟨hO, ?_⟩⟩
  · rw [hU]; exact read_user_absent db i hu
  · rw [hP]; exact read_product_absent db i hp
  · rw [hO]; exact read_order_absent db i ho

/-- Witness for C4 on the empty store at id 1. -/
theorem C4_put_missing_id_writes_nothing_witness :
    putUser emptyDB 1 (UserRec.mk "Ann" "Lee" "ann@example.com" "hunter2") =
      (emptyDB, .ok (1, UserRec.mk "Ann" "Lee" "ann@example.com" "hunter2")) ∧
    read_user (putUser emptyDB 1
        (UserRec.mk "Ann" "Lee" "ann@example.com" "hunter2")).1 1 =
      .errJson 404 [("error", "ID not found")] :=
  (C4_put_missing_id_writes_nothing emptyDB 1
    (UserRec.mk "Ann" "Lee" "ann@example.com" "hunter2")
    (ProductRec.mk "Widget" "A widget" 1) 0 1 1 none none
    (by decide) (by decide) rfl rfl rfl).1

/-- C5: `DELETE` is idempotent for every entity: on any store and id, the
fixed confirmation message comes back both times and the store after the
second delete equals the store after the first, so the response does not
reveal whether a row existed. -/
theorem C5_delete_idempotent (db : DB) (i : Int) :
    (delete_user db i).2 = [("message", "User deleted")] ∧
    (delete_user (delete_user db i).1 i).2 = (delete_user db i).2 ∧
    (delete_user (delete_user db i).1 i).1 = (delete_user db i).1 ∧
    (delete_product db i).2 = [("message", "Product deleted")] ∧
    (delete_product (delete_product db i).1 i).2 = (delete_product db i).2 ∧
    (delete_product (delete_product db i).1 i).1 = (delete_product db i).1 ∧
    (delete_order db i).2 = [("message", "Order deleted")] ∧
    (delete_order (delete_order db i).1 i).2 = (delete_order db i).2 ∧
    (delete_order (delete_order db i).1 i).1 = (delete_order db i).1 := by
  refine ⟨rfl, rfl, ?_, rfl, rfl, ?_, rfl, rfl, ?_⟩ <;>
    simp [delete_user, delete_product, delete_order, deleteRows_idem]

/-- C6: a create or replace body with a short password, a non-positive
price, or any over-long string field is rejected by validation with a 422
carrying a per-field error naming the offending field, and the handler
body never runs, so the store is unchanged. -/
theorem C6_validation_rejects (db : DB) (i : Int) (u : UserRec)
    (p : ProductRec)
    (hu : u.password.length < 6 ∨ 50 < u.first_name.length ∨
      150 < u.last_name.length ∨ 150 < u.email.length)
    (hp : p.price ≤ 0 ∨ 100 < p.name.length ∨
      1000 < p.description.length) :
    postUser db u = (db, .validationError 422 (validateNewUser u)) ∧
    putUser db i u = (db, .validationError 422 (validateNewUser u)) ∧
    postProduct db p = (db, .validationError 422 (validateNewProduct p)) ∧
    putProduct db i p = (db, .validationError 422 (validateNewProduct p)) ∧
    validateNewUser u ≠ [] ∧
    validateNewProduct p ≠ [] ∧
    (u.password.length < 6 → "password" ∈ validateNewUser u) ∧
    (50 < u.first_name.length → "first_name" ∈ validateNewUser u) ∧
    (150 < u.last_name.length → "last_name" ∈ validateNewUser u) ∧
    (150 < u.email.length → "email" ∈ validateNewUser u) ∧
    (p.price ≤ 0 → "price" ∈ validateNewProduct p) ∧
    (100 < p.name.length → "name" ∈ validateNewProduct p) ∧
    (1000 < p.description.length → "description" ∈ validateNewProduct p)
    := by
  have hne_u : validateNewUser u ≠ [] := by
    rcases hu with h | h | h | h
    · exact List.ne_nil_of_mem (validateNewUser_password_mem u h)
    · exact List.ne_nil_of_mem (validateNewUser_first_name_mem u h)
    · exact List.ne_nil_of_mem (validateNewUser_last_name_mem u h)
    · exact List.ne_nil_of_mem (validateNewUser_email_mem u h)
  have hne_p : validateNewProduct p ≠ [] := by
    rcases hp with h | h | h
    · exact List.ne_nil_of_mem (validateNewProduct_price_mem p h)
    · exact List.ne_nil_of_mem (validateNewProduct_name_mem p h)
    · exact List.ne_nil_of_mem (validateNewProduct_description_mem p h)
  refine ⟨by simp [postUser, hne_u], by simp [putUser, hne_u],
    by simp [postProduct, hne_p], by simp [putProduct, hne_p],
    hne_u, hne_p,
    fun h => validateNewUser_password_mem u h,
    fun h => validateNewUser_first_name_mem u h,
    fun h => validateNewUser_last_name_mem u h,
    fun h => validateNewUser_email_mem u h,
    fun h => validateNewProduct_price_mem p h,
    fun h => validateNewProduct_name_mem p h,
    fun h => validateNewProduct_description_mem p h⟩

/-- Witness for C6: a five-character password and a price of zero, on the
empty store. -/
theorem C6_validation_rejects_witness :
    ((UserRec.mk "Ann" "Lee" "ann@example.com" "pw").password.length < 6 ∨
      50 < (UserRec.mk "Ann" "Lee" "ann@example.com" "pw").first_name.length ∨
      150 < (UserRec.mk "Ann" "Lee" "ann@example.com" "pw").last_name.length ∨
      150 < (UserRec.mk "Ann" "Lee" "ann@example.com" "pw").email.length) ∧
    ((ProductRec.mk "Widget" "A widget" 0).price ≤ 0 ∨
      100 < (ProductRec.mk "Widget" "A widget" 0).name.length ∨
      1000 < (ProductRec.mk "Widget" "A widget" 0).description.length) ∧
    postUser emptyDB (UserRec.mk "Ann" "Lee" "ann@example.com" "pw") =
      (emptyDB, .validationError 422
        (validateNewUser (UserRec.mk "Ann" "Lee" "ann@example.com" "pw"))) ∧
    postProduct emptyDB (ProductRec.mk "Widget" "A widget" 0) =
      (emptyDB, .validationError 422
        (validateNewProduct (ProductRec.mk "Widget" "A widget" 0))) :=
  ⟨by decide, by decide,
    (C6_validation_rejects emptyDB 1
      (UserRec.mk "Ann" "Lee" "ann@example.com" "pw")
      (ProductRec.mk "Widget" "A widget" 0)
      (by decide) (by decide)).1,
    (C6_validation_rejects emptyDB 1
      (UserRec.mk "Ann" "Lee" "ann@example.com" "pw")
      (ProductRec.mk "Widget" "A widget" 0)
      (by decide) (by decide)).2.2.1⟩

/-- C7: starting from the empty store, N creates followed by a list give
exactly N records, for each of the three entities; listing the empty
store gives the empty sequence, not an error. -/
theorem C7_create_n_then_list (lu : List UserRec) (lp : List ProductRec)
    (lo : List OrderRec) :
    (read_all_users (createUsers emptyDB lu)).length = lu.length ∧
    (read_all_products (createProducts emptyDB lp)).length = lp.length ∧
    (read_all_orders (createOrders emptyDB lo)).length = lo.length ∧
    read_all_users emptyDB = [] ∧
    read_all_products emptyDB = [] ∧
    read_all_orders emptyDB = [] := by
  refine ⟨?_, ?_, ?_, rfl, rfl, rfl⟩
  · simpa [read_all_users, emptyDB] using createUsers_users_length lu emptyDB
  · simpa [read_all_products, emptyDB] using
      createProducts_products_length lp emptyDB
  · simpa [read_all_orders, emptyDB] using
      createOrders_orders_length lo emptyDB

/-- C8: `POST /orders/` succeeds for any `user_id` and `product_id`,
in particular when no user row and no product row with those ids exists:
the echo carries the fresh id and the submitted foreign keys, and exactly
one order row is appended — no cross-entity lookup happens. -/
theorem C8_create_order_no_fk_check (importTime : Nat) (db : DB)
    (uid pid : Int) (od : Option Nat) (os : Option String)
    (_hu : fetch_one db.users uid = none)
    (_hp : fetch_one db.products pid = none) :
    (postOrder importTime db uid pid od os).2 =
      .ok (nextId db.orders, parseNewOrder importTime uid pid od os) ∧
    (postOrder importTime db uid pid od os).1.orders.length =
      db.orders.length + 1 := by
  refine ⟨rfl, ?_⟩
  simp [postOrder, create_order, insertRow]

/-- Witness for C8 on the empty store with dangling foreign keys 5, 7. -/
theorem C8_create_order_no_fk_check_witness :
    (fetch_one emptyDB.users 5 = none ∧
     fetch_one emptyDB.products 7 = none) ∧
    ((postOrder 0 emptyDB 5 7 none none).2 =
      .ok (nextId emptyDB.orders, parseNewOrder 0 5 7 none none) ∧
    (postOrder 0 emptyDB 5 7 none none).1.orders.length =
      emptyDB.orders.length + 1) :=
  ⟨⟨rfl, rfl⟩, C8_create_order_no_fk_check 0 emptyDB 5 7 none none rfl rfl⟩

/-- C9: update and delete touch at most the addressed row of their own
table — every row with a different id answers lookups exactly as before —
and every create, update and delete leaves the other two tables equal. -/
theorem C9_operations_frame (db : DB) (i j : Int) (u : UserRec)
    (p : ProductRec) (o : OrderRec) (hne : j ≠ i) :
    fetch_one (update_user db i u).1.users j = fetch_one db.users j ∧
    fetch_one (update_product db i p).1.products j =
      fetch_one db.products j ∧
    fetch_one (update_order db i o).1.orders j = fetch_one db.orders j ∧
    fetch_one (delete_user db i).1.users j = fetch_one db.users j ∧
    fetch_one (delete_product db i).1.products j =
      fetch_one db.products j ∧
    fetch_one (delete_order db i).1.orders j = fetch_one db.orders j ∧
    ((create_user db u).1.products = db.products ∧
      (create_user db u).1.orders = db.orders) ∧
    ((update_user db i u).1.products = db.products ∧
      (update_user db i u).1.orders = db.orders) ∧
    ((delete_user db i).1.products = db.products ∧
      (delete_user db i).1.orders = db.orders) ∧
    ((create_product db p).1.users = db.users ∧
      (create_product db p).1.orders = db.orders) ∧
    ((update_product db i p).1.users = db.users ∧
      (update_product db i p).1.orders = db.orders) ∧
    ((delete_product db i).1.users = db.users ∧
      (delete_product db i).1.orders = db.orders) ∧
    ((create_order db o).1.users = db.users ∧
      (create_order db o).1.products = db.products) ∧
    ((update_order db i o).1.users = db.users ∧
      (update_order db i o).1.products = db.products) ∧
    ((delete_order db i).1.users = db.users ∧
      (delete_order db i).1.products = db.products) :=
  ⟨fetch_one_updateRows_ne db.users i j u hne,
   fetch_one_updateRows_ne db.products i j p hne,
   fetch_one_updateRows_ne db.orders i j o hne,
   fetch_one_deleteRows_ne db.users i j hne,
   fetch_one_deleteRows_ne db.products i j hne,
   fetch_one_deleteRows_ne db.orders i j hne,
   ⟨rfl, rfl⟩, ⟨rfl, rfl⟩, ⟨rfl, rfl⟩, ⟨rfl, rfl⟩, ⟨rfl, rfl⟩,
   ⟨rfl, rfl⟩, ⟨rfl, rfl⟩, ⟨rfl, rfl⟩, ⟨rfl, rfl⟩⟩

/-- Witness for C9 with ids 1 (written) and 2 (read) on the empty store. -/
theorem C9_operations_frame_witness :
    (2 : Int) ≠ 1 ∧
    fetch_one (update_user emptyDB 1
        (UserRec.mk "Ann" "Lee" "ann@example.com" "hunter2")).1.users 2 =
      fetch_one emptyDB.users 2 :=
  ⟨by decide,
   (C9_operations_frame emptyDB 1 2
     (UserRec.mk "Ann" "Lee" "ann@example.com" "hunter2")
     (ProductRec.mk "Widget" "A widget" 1)
     (OrderRec.mk 1 1 0 "created") (by decide)).1⟩

/-- C10: the response bodies of replace-by-id and delete-by-id are the
same function of the request alone — two arbitrary store states produce
identical responses — so they reveal nothing about the store. -/
theorem C10_responses_store_independent (db1 db2 : DB) (i : Int)
    (u : UserRec) (p : ProductRec) (importTime : Nat) (uid pid : Int)
    (od : Option Nat) (os : Option String) :
    (putUser db1 i u).2 = (putUser db2 i u).2 ∧
    (putProduct db1 i p).2 = (putProduct db2 i p).2 ∧
    (putOrder importTime db1 i uid pid od os).2 =
      (putOrder importTime db2 i uid pid od os).2 ∧
    (delete_user db1 i).2 = (delete_user db2 i).2 ∧
    (delete_product db1 i).2 = (delete_product db2 i).2 ∧
    (delete_order db1 i).2 = (delete_order db2 i).2 := by
  refine ⟨?_, ?_, rfl, rfl, rfl, rfl⟩
  · by_cases hv : validateNewUser u = [] <;> simp [putUser, hv, update_user]
  · by_cases hv : validateNewProduct p = [] <;>
      simp [putProduct, hv, update_product]

end FinalFastapi
